import Mathlib

/-!
Verification of the LVTShift property-tax engine (`src/lvt_utils.py`).

The embedding models a pandas dataframe column cell as `Option ℚ`:
`none` stands for NaN, the result of `pd.to_numeric with coercing errors`
on a non-numeric value.  Monetary arithmetic is modelled over ℚ (the spec
"exact arithmetic" reading of the floating-point code); the IEEE special
values NaN and ±inf that pandas element-wise division can produce are
modelled by the `PFloat` type.  the Python `ZeroDivisionError` (raised by
scalar float division by zero) is modelled by an explicit `Err.divisionByZero`
result; `ValueError`s are split by message into `Err.invalidArgument`
(missing column / bad type) and `Err.invalidConstraint` (secondary millage
exceeds primary; degenerate tax base), following the taxonomy of the spec.
-/

namespace LVT

/-- A dataframe cell after `pd.to_numeric with coercing errors`:
`none` models NaN (a non-numeric or missing source value). -/
abbrev Cell := Option ℚ

/-- pandas `Series.fillna(d)` on a single cell. -/
def fillna (c : Cell) (d : ℚ) : ℚ := c.getD d

/-- Elementwise product of two columns; NaN propagates. -/
def cmul : Cell → Cell → Cell
  | some a, some b => some (a * b)
  | _, _ => none

/-- Elementwise difference of two columns; NaN propagates. -/
def csub : Cell → Cell → Cell
  | some a, some b => some (a - b)
  | _, _ => none

/-- pandas `.clip(lower=0)`: NaN stays NaN. -/
def cclip0 (c : Cell) : Cell := c.map (fun q => max q 0)

/-- `np.minimum`: NaN if either operand is NaN. -/
def cmin : Cell → Cell → Cell
  | some a, some b => some (min a b)
  | _, _ => none

/-- Elementwise `>` comparison: any comparison with NaN is False. -/
def cgt (a b : Cell) : Bool :=
  match a, b with
  | some x, some y => decide (y < x)
  | _, _ => false

/-- `Series.where(cond, 0)`: keep the cell where the condition holds, else 0. -/
def cwhere (c : Cell) (keep : Bool) : Cell := if keep then c else some 0

/-- An IEEE-754 style value as produced by pandas element-wise division:
a finite rational, NaN, or a signed infinity. -/
inductive PFloat where
  | nan : PFloat
  | pinf (pos : Bool) : PFloat
  | fin (q : ℚ) : PFloat
deriving DecidableEq

/-- IEEE division of finite values: `x / 0` is NaN when `x = 0`, else a
signed infinity (the divisor zero coming from data is `+0.0`). -/
def pdivQ (a b : ℚ) : PFloat :=
  if b = 0 then (if a = 0 then .nan else .pinf (decide (0 < a))) else .fin (a / b)

/-- pandas element-wise division of two possibly-NaN cells. -/
def pdivC (a b : Cell) : PFloat :=
  match a, b with
  | some x, some y => pdivQ x y
  | _, _ => .nan

/-- Multiplication of an IEEE value by a finite rational. -/
def pmulQ (p : PFloat) (c : ℚ) : PFloat :=
  match p with
  | .nan => .nan
  | .fin q => .fin (q * c)
  | .pinf s => if c = 0 then .nan else .pinf (s == decide (0 < c))

/-- `fillna` on an IEEE value: only NaN is replaced, infinities survive. -/
def pfillna (p : PFloat) (d : ℚ) : PFloat :=
  match p with
  | .nan => .fin d
  | x => x

/-- IEEE addition (for summing a column that may hold infinities). -/
def padd : PFloat → PFloat → PFloat
  | .nan, _ => .nan
  | _, .nan => .nan
  | .pinf s, .pinf t => if s == t then .pinf s else .nan
  | .pinf s, .fin _ => .pinf s
  | .fin _, .pinf t => .pinf t
  | .fin a, .fin b => .fin (a + b)

/-- Sum of a column of IEEE values. -/
def psum (l : List PFloat) : PFloat := l.foldl padd (.fin 0)

/-- The error taxonomy of the spec.  `invalidArgument` models a `TypeError`
or a missing-column `ValueError`; `invalidConstraint` models the
`ValueError`s raised for a secondary millage exceeding the primary and for
a non-positive tax base; `divisionByZero` models the Python
`ZeroDivisionError` from scalar float division by zero. -/
inductive Err where
  | invalidArgument : Err
  | invalidConstraint : Err
  | divisionByZero : Err
deriving DecidableEq

/-! ## Current-tax calculator (`calculate_current_tax`, lvt_utils.py lines 5-113)

A row of the input dataframe carries the cells of the columns the call may
name; a `CalcArgs` record says which optional columns were passed (a passed
column is assumed present, so the missing-column `ValueError` path is not
modelled).  All cells are the post-`to_numeric` coercions. -/

structure CalcRow where
  value : Cell
  millage : Cell
  exemption : Cell := none
  exemption_flag : Cell := none
  cap : Cell := none
  second_millage : Cell := none
deriving DecidableEq

structure CalcArgs where
  use_exemption : Bool := false
  use_flag : Bool := false
  use_cap : Bool := false
  use_second : Bool := false
deriving DecidableEq

structure CalcOutRow where
  current_tax : ℚ
  tax_capped : Option Bool
  second_tax : Option PFloat
deriving DecidableEq

structure CalcOut where
  total_revenue : ℚ
  second_revenue : PFloat
  rows : List CalcOutRow
deriving DecidableEq

/-- Lines 74-82: the taxable value after the exemption flag
(`value.where(flag == 0, 0)`) and the exemption amount
(`(taxable - exemption).clip(lower=0)`, exemption `fillna(0)`). -/
def calc_taxable (args : CalcArgs) (r : CalcRow) : Cell :=
  let t0 : Cell :=
    if args.use_flag then cwhere r.value (fillna r.exemption_flag 0 = 0) else r.value
  if args.use_exemption then cclip0 (csub t0 (some (fillna r.exemption 0))) else t0

/-- Line 85: `current_tax = taxable_value * millage / 1000` (pre-cap). -/
def calc_tax0 (args : CalcArgs) (r : CalcRow) : Cell :=
  (cmul (calc_taxable args r) r.millage).map (fun q => q / 1000)

/-- Line 91: `max_tax = value * cap`, the cap column `fillna(1)`. -/
def calc_max_tax (r : CalcRow) : Cell :=
  cmul r.value (some (fillna r.cap 1))

/-- Lines 88-95: the capped tax, `np.minimum(current_tax, max_tax)` when a
cap column was passed. -/
def calc_tax1 (args : CalcArgs) (r : CalcRow) : Cell :=
  if args.use_cap then cmin (calc_tax0 args r) (calc_max_tax r) else calc_tax0 args r

/-- One output row of the calculator: `current_tax` after the final
`fillna(0)` (line 97), the `tax_capped` flag (line 93, only when a cap
column was passed), and `second_tax` (lines 104-107:
`current_tax * (second_millage / millage)` then `fillna(0)`). -/
def calc_row (args : CalcArgs) (r : CalcRow) : CalcOutRow :=
  ⟨fillna (calc_tax1 args r) 0,
   if args.use_cap then some (cgt (calc_tax0 args r) (calc_max_tax r)) else none,
   if args.use_second then
     some (pfillna (pmulQ (pdivC r.second_millage r.millage) (fillna (calc_tax1 args r) 0)) 0)
   else none⟩

/-- Line 70: the secondary-millage validation predicate,
`(second > millage).any()` on the coerced columns. -/
def calc_check (rows : List CalcRow) (args : CalcArgs) : Bool :=
  args.use_second && rows.any (fun r => cgt r.second_millage r.millage)

/-- Lines 99-108: the annotated table and the two revenue totals. -/
def calc_out (rows : List CalcRow) (args : CalcArgs) : CalcOut :=
  let outRows := rows.map (calc_row args)
  ⟨(outRows.map (fun r => r.current_tax)).sum,
   if args.use_second then psum (outRows.map (fun r => (r.second_tax).getD (.fin 0))) else .fin 0,
   outRows⟩

/-- `calculate_current_tax` (lines 5-113): validate the secondary millage
(raising the `InvalidConstraint` `ValueError` of line 71 before any
per-parcel tax is computed), then compute the annotated table. -/
def calculate_current_tax (rows : List CalcRow) (args : CalcArgs) : Except Err CalcOut :=
  if calc_check rows args then .error .invalidConstraint
  else .ok (calc_out rows args)

/-! ## Split-rate solver (`model_split_rate_tax`, lvt_utils.py lines 115-317) -/

structure SolverRow where
  land_value : Cell
  improvement_value : Cell
  exemption : Cell := none
  exemption_flag : Cell := none
  cap : Cell := none
  current_tax : Cell := none
deriving DecidableEq

structure SolverArgs where
  use_exemption : Bool := false
  use_flag : Bool := false
  use_cap : Bool := false
  has_current_tax : Bool := false
deriving DecidableEq

structure SolverOutRow where
  land_tax : PFloat
  improvement_tax : PFloat
  new_tax : ℚ
  tax_capped : Option Bool
  tax_change : Cell
  tax_change_pct : Cell
deriving DecidableEq

/-- The return value of the solver.  Python returns
`(land_millage, improvement_millage, new_total_revenue, result_df)`; the
`warned` field additionally records whether the non-convergence warning of
line 257 was printed (an observational side channel in the source). -/
structure SolverOut where
  land_millage : ℚ
  improvement_millage : ℚ
  new_total_revenue : ℚ
  warned : Bool
  rows : List SolverOutRow
deriving DecidableEq

/-- Lines 185-206: the post-exemption adjusted (land, improvement) values of
one parcel.  Both value columns are `fillna(0)` (lines 185-186); the
exemption flag zeroes both values (lines 189-192); a numeric exemption is
applied to the improvement value first, its unconsumed part
(`remaining.clip(lower=0)`) then to the land value, both clipped at 0
(lines 197-206). -/
def adjustedLI (args : SolverArgs) (r : SolverRow) : ℚ × ℚ :=
  let lv := fillna r.land_value 0
  let iv := fillna r.improvement_value 0
  let aL0 := if args.use_flag then (if fillna r.exemption_flag 0 = 0 then lv else 0) else lv
  let aI0 := if args.use_flag then (if fillna r.exemption_flag 0 = 0 then iv else 0) else iv
  if args.use_exemption then
    let ex := fillna r.exemption 0
    let remaining := ex - aI0
    (max (aL0 - max remaining 0) 0, max (aI0 - ex) 0)
  else (aL0, aI0)

/-- Line 209: `total_land_value`, the sum of the adjusted land values. -/
def total_adj_land (rows : List SolverRow) (args : SolverArgs) : ℚ :=
  (rows.map (fun r => (adjustedLI args r).1)).sum

/-- Line 210: `total_improvement_value`. -/
def total_adj_improvement (rows : List SolverRow) (args : SolverArgs) : ℚ :=
  (rows.map (fun r => (adjustedLI args r).2)).sum

/-- Line 213: the denominator
`total_improvement_value + land_improvement_ratio * total_land_value`. -/
def denomOf (rows : List SolverRow) (args : SolverArgs) (ratio : ℚ) : ℚ :=
  total_adj_improvement rows args + ratio * total_adj_land rows args

/-- Lines 220, 239, 272: the cap ceiling of a parcel
`max_tax = (land_value + improvement_value) * cap`, the raw (not
exemption-adjusted) values, the cap column `fillna(1)` (line 219). -/
def row_max_tax (r : SolverRow) : ℚ :=
  (fillna r.land_value 0 + fillna r.improvement_value 0) * fillna r.cap 1

/-- Lines 234-243: the total revenue with caps applied, at improvement
millage `m` and land millage `ratio * m`. -/
def capped_revenue (rows : List SolverRow) (args : SolverArgs) (ratio m : ℚ) : ℚ :=
  (rows.map (fun r =>
    min ((adjustedLI args r).1 * (ratio * m) / 1000 + (adjustedLI args r).2 * m / 1000)
        (row_max_tax r))).sum

/-- Lines 227-257: the iterative proportional-scaling loop.  The fuel counts
the iterations left of `max_iterations = 40`; running out of fuel is the
`iteration == max_iterations` case that prints the warning (the `true`
flag) and proceeds with the last computed rates.  The two scalar float
divisions (line 246 by `current_revenue`, line 250 by
`new_total_revenue`) raise `ZeroDivisionError` when the divisor is 0. -/
def solve_loop (rows : List SolverRow) (args : SolverArgs) (target ratio : ℚ) :
    ℕ → ℚ → Except Err (ℚ × Bool)
  | 0, m => .ok (m, true)
  | n + 1, m =>
    if target = 0 then .error .divisionByZero
    else if |capped_revenue rows args ratio m - target| / target < 1 / 100000 then .ok (m, false)
    else if capped_revenue rows args ratio m = 0 then .error .divisionByZero
    else solve_loop rows args target ratio n (m * (target / capped_revenue rows args ratio m))

/-- The pandas expression of lines 285-295,
`land_tax / total_uncapped * new_tax`, with IEEE semantics for a zero
denominator. -/
def redistribute (part total new_t : ℚ) : PFloat :=
  pmulQ (pdivQ part total) new_t

/-- Line 302: `tax_change = new_tax - current_tax` (only when a
`current_tax` column is present; the raw cell is used, not a coercion). -/
def tax_change_of (args : SolverArgs) (nt : ℚ) (r : SolverRow) : Cell :=
  if args.has_current_tax then csub (some nt) r.current_tax else none

/-- Lines 304-308: `tax_change_pct = np.where(current_tax > 0,
tax_change / current_tax * 100, 0)`. -/
def tax_change_pct_of (args : SolverArgs) (nt : ℚ) (r : SolverRow) : Cell :=
  if args.has_current_tax then
    some (if cgt r.current_tax (some 0) then
            ((nt - fillna r.current_tax 0) / fillna r.current_tax 0) * 100
          else 0)
  else none

/-- Lines 263-295: the per-parcel apportionment at the final rates:
`land_tax`, `improvement_tax`, `new_tax = land_tax + improvement_tax`;
when a cap column was passed, the `tax_capped` flag (`new_tax > max_tax`,
line 274), the clamp (line 276), and for capped parcels only the
redistribution of the clamped total back into `land_tax` and
`improvement_tax` (lines 285-295, with no zero-denominator guard). -/
def post_row (args : SolverArgs) (landM imprM : ℚ) (r : SolverRow) : SolverOutRow :=
  let lt := (adjustedLI args r).1 * landM / 1000
  let it := (adjustedLI args r).2 * imprM / 1000
  let n0 := lt + it
  if args.use_cap then
    let mt := row_max_tax r
    let nt := min n0 mt
    if mt < n0 then
      ⟨redistribute lt n0 nt, redistribute it n0 nt, nt, some true,
       tax_change_of args nt r, tax_change_pct_of args nt r⟩
    else
      ⟨.fin lt, .fin it, nt, some false,
       tax_change_of args nt r, tax_change_pct_of args nt r⟩
  else
    ⟨.fin lt, .fin it, n0, none,
     tax_change_of args n0 r, tax_change_pct_of args n0 r⟩

/-- The normal return value of the solver at final improvement millage `m`:
`land_millage = ratio * m` (lines 224/252/261), the annotated table, and
`new_total_revenue` recomputed as the sum of the final `new_tax` column
(line 298). -/
def solver_out (rows : List SolverRow) (args : SolverArgs) (ratio m : ℚ)
    (warned : Bool) : SolverOut :=
  let outRows := rows.map (post_row args (ratio * m) m)
  ⟨ratio * m, m, (outRows.map (fun r => r.new_tax)).sum, warned, outRows⟩

/-- The final improvement millage and warning flag: with a cap column, the
40-iteration loop started from the closed-form seed
`current_revenue * 1000 / denom` (line 223); without one, the closed form
itself (line 260). -/
def loop_result (rows : List SolverRow) (args : SolverArgs) (target ratio : ℚ) :
    Except Err (ℚ × Bool) :=
  if args.use_cap then
    solve_loop rows args target ratio 40 (target * 1000 / denomOf rows args ratio)
  else .ok (target * 1000 / denomOf rows args ratio, false)

/-- `model_split_rate_tax` (lines 115-317): check the denominator (line 214,
the `InvalidConstraint` `ValueError`, raised during setup before any rate
is computed); find the improvement millage (loop or closed form); apportion
per parcel; finally the report of line 315 divides by `current_revenue`,
raising `ZeroDivisionError` when the target is 0. -/
def model_split_rate_tax (rows : List SolverRow) (args : SolverArgs)
    (current_revenue : ℚ) (land_improvement_ratio : ℚ := 3) : Except Err SolverOut :=
  if denomOf rows args land_improvement_ratio ≤ 0 then .error .invalidConstraint
  else
    match loop_result rows args current_revenue land_improvement_ratio with
    | .error e => .error e
    | .ok (m, warned) =>
      if current_revenue = 0 then .error .divisionByZero
      else .ok (solver_out rows args land_improvement_ratio m warned)

/-! ## Concrete tables used by the witnesses and counterexamples -/

/-- Two parcels, land [100000, 0] and improvement [0, 50000] (spec §8). -/
def ex1_rows : List SolverRow :=
  [⟨some 100000, some 0, none, none, none, none⟩,
   ⟨some 0, some 50000, none, none, none, none⟩]

/-- One parcel whose 1% cap keeps revenue pinned at 1000 while the target is
2000: the loop never converges and exhausts its 40 iterations. -/
def ex2_rows : List SolverRow := [⟨some 100000, some 0, none, none, some (1 / 100), none⟩]

/-- The improvement millage after 40 doublings of the seed 20/3. -/
def ex2_m : ℚ := 20 / 3 * 2 ^ 40

/-- A large uncapped parcel and an exempt parcel with a negative cap
ceiling: the second parcel is flagged capped with a zero pre-cap total. -/
def ex3c_rows : List SolverRow :=
  [⟨some 100000, some 0, none, some 0, some 1000, none⟩,
   ⟨some 100, some 0, none, some 1, some (-1 / 2), none⟩]

/-- A large uncapped parcel and a parcel whose uncapped taxes at the solved
rates are land 300, improvement 100, with cap ceiling 200 (spec §8). -/
def ex3w_rows : List SolverRow :=
  [⟨some 10000000000, some 0, none, none, some 1, none⟩,
   ⟨some 100000, some 100000, none, none, some (1 / 1000), none⟩]

/-- Three parcels with values [100000, 200000, 0] and millage 20 (spec §8). -/
def ex4_rows : List CalcRow :=
  [⟨some 100000, some 20, none, none, none, none⟩,
   ⟨some 200000, some 20, none, none, none, none⟩,
   ⟨some 0, some 20, none, none, none, none⟩]

/-- One parcel whose secondary millage 30 exceeds the primary millage 20. -/
def ex5_rows : List CalcRow := [⟨some 100000, some 20, none, none, none, some 30⟩]

/-- One parcel with a negative percentage cap: `min(2000, -50000)` drives
the tax negative. -/
def ex7c_rows : List CalcRow := [⟨some 100000, some 20, none, none, some (-1 / 2), none⟩]

/-- One parcel with a benign 50% cap. -/
def ex7w_rows : List CalcRow := [⟨some 100000, some 20, none, none, some (1 / 2), none⟩]

/-- One parcel with land 100000 and improvement 50000: the per-parcel tax
ratio is 2 times the rate ratio. -/
def ex8_rows : List SolverRow := [⟨some 100000, some 50000, none, none, none, none⟩]

/-- One parcel with a non-numeric percentage-cap cell. -/
def ex9_rows : List CalcRow := [⟨some 100000, some 20, none, none, none, none⟩]

/-- The same parcel with the cap cell set to the numeric 0 the claim
predicts for the coerced value. -/
def ex9z_rows : List CalcRow := [⟨some 100000, some 20, none, none, some 0, none⟩]

/-- One capped parcel; with target revenue 0 the convergence test divides
by zero on the first iteration. -/
def ex10_rows : List SolverRow := [⟨some 100000, some 0, none, none, some (1 / 50), none⟩]

/-- Cell-level nonnegativity: missing, or a nonnegative rational. -/
def cell_nonneg (c : Cell) : Bool :=
  match c with
  | none => true
  | some q => decide (0 ≤ q)

/-! ## Helper lemmas -/

lemma qsum_map_add {α : Type} (l : List α) (f g : α → ℚ) :
    (l.map (fun x => f x + g x)).sum = (l.map f).sum + (l.map g).sum := by
  induction l with
  | nil => simp
  | cons a t ih => simp [ih]; ring

lemma qsum_map_mul {α : Type} (l : List α) (f : α → ℚ) (c : ℚ) :
    (l.map (fun x => f x * c)).sum = (l.map f).sum * c := by
  induction l with
  | nil => simp
  | cons a t ih => simp [ih]; ring

lemma calc_ok_eq {rows : List CalcRow} {args : CalcArgs} {o : CalcOut}
    (h : calculate_current_tax rows args = .ok o) : o = calc_out rows args := by
  unfold calculate_current_tax at h
  split at h
  · exact Except.noConfusion h
  · exact (Except.ok.inj h).symm

lemma calc_out_rows_get {rows : List CalcRow} {args : CalcArgs} {i : ℕ} :
    (calc_out rows args).rows[i]? = (rows[i]?).map (calc_row args) := by
  simp [calc_out, List.getElem?_map]

lemma solve_loop_no_ic {rows : List SolverRow} {args : SolverArgs} {T ratio : ℚ} :
    ∀ n m, solve_loop rows args T ratio n m ≠ .error .invalidConstraint := by
  intro n
  induction n with
  | zero => intro m h; exact Except.noConfusion h
  | succ k ih =>
    intro m h
    simp only [solve_loop] at h
    split at h
    · exact Err.noConfusion (Except.error.inj h)
    · split at h
      · exact Except.noConfusion h
      · split at h
        · exact Err.noConfusion (Except.error.inj h)
        · exact ih _ h

lemma loop_result_no_ic {rows : List SolverRow} {args : SolverArgs} {T ratio : ℚ} :
    loop_result rows args T ratio ≠ .error .invalidConstraint := by
  unfold loop_result
  split
  · exact solve_loop_no_ic _ _
  · intro h; exact Except.noConfusion h

lemma solve_loop_ok_target_ne {rows : List SolverRow} {args : SolverArgs}
    {T ratio : ℚ} {n : ℕ} {m : ℚ} {p : ℚ × Bool} (hn : n ≠ 0)
    (h : solve_loop rows args T ratio n m = .ok p) : T ≠ 0 := by
  intro hT
  cases n with
  | zero => exact hn rfl
  | succ k =>
    simp only [solve_loop] at h
    rw [if_pos hT] at h
    exact Except.noConfusion h

lemma model_ok_iff {rows : List SolverRow} {args : SolverArgs} {T ratio : ℚ}
    {o : SolverOut} :
    model_split_rate_tax rows args T ratio = .ok o ↔
      ¬ denomOf rows args ratio ≤ 0 ∧ T ≠ 0 ∧
      ∃ m warned, loop_result rows args T ratio = .ok (m, warned) ∧
        o = solver_out rows args ratio m warned := by
  constructor
  · intro h
    unfold model_split_rate_tax at h
    split at h
    · exact Except.noConfusion h
    · next hd =>
      cases hlr : loop_result rows args T ratio with
      | error e => rw [hlr] at h; exact Except.noConfusion h
      | ok p =>
        obtain ⟨m, w⟩ := p
        rw [hlr] at h
        dsimp only at h
        split at h
        · exact Except.noConfusion h
        · next hT => exact ⟨hd, hT, m, w, rfl, (Except.ok.inj h).symm⟩
  · rintro ⟨hd, hT, m, w, hlr, rfl⟩
    unfold model_split_rate_tax
    rw [if_neg hd, hlr]
    dsimp only
    rw [if_neg hT]

lemma solver_out_fields {rows : List SolverRow} {args : SolverArgs} {ratio m : ℚ}
    {w : Bool} :
    (solver_out rows args ratio m w).land_millage = ratio * m ∧
    (solver_out rows args ratio m w).improvement_millage = m ∧
    (solver_out rows args ratio m w).warned = w ∧
    (solver_out rows args ratio m w).rows = rows.map (post_row args (ratio * m) m) := by
  refine ⟨rfl, rfl, rfl, rfl⟩

lemma post_row_new_tax_nocap {args : SolverArgs} (h : args.use_cap = false)
    (landM imprM : ℚ) (r : SolverRow) :
    (post_row args landM imprM r).new_tax =
      (adjustedLI args r).1 * landM / 1000 + (adjustedLI args r).2 * imprM / 1000 := by
  simp [post_row, h]

lemma solver_out_rows_get {rows : List SolverRow} {args : SolverArgs}
    {ratio m : ℚ} {w : Bool} {i : ℕ} :
    (solver_out rows args ratio m w).rows[i]? =
      (rows[i]?).map (post_row args (ratio * m) m) := by
  simp [solver_out, List.getElem?_map]

lemma solver_out_land {rows : List SolverRow} {args : SolverArgs}
    {ratio m : ℚ} {w : Bool} :
    (solver_out rows args ratio m w).land_millage = ratio * m := rfl

lemma solver_out_impr {rows : List SolverRow} {args : SolverArgs}
    {ratio m : ℚ} {w : Bool} :
    (solver_out rows args ratio m w).improvement_millage = m := rfl

lemma calc_eval_ok {rows : List CalcRow} {args : CalcArgs}
    (h : calc_check rows args = false) :
    calculate_current_tax rows args = .ok (calc_out rows args) := by
  simp [calculate_current_tax, h]

lemma model_eval_ok {rows : List SolverRow} {args : SolverArgs} {T ratio m : ℚ}
    {w : Bool} (hd : ¬ denomOf rows args ratio ≤ 0) (hT : T ≠ 0)
    (hl : loop_result rows args T ratio = .ok (m, w)) :
    model_split_rate_tax rows args T ratio = .ok (solver_out rows args ratio m w) :=
  model_ok_iff.mpr ⟨hd, hT, m, w, hl, rfl⟩

lemma model_eval_loop_error {rows : List SolverRow} {args : SolverArgs}
    {T ratio : ℚ} {e : Err} (hd : ¬ denomOf rows args ratio ≤ 0)
    (hl : loop_result rows args T ratio = .error e) :
    model_split_rate_tax rows args T ratio = .error e := by
  unfold model_split_rate_tax
  rw [if_neg hd, hl]

lemma loop_result_nocap {rows : List SolverRow} {args : SolverArgs} {T ratio : ℚ}
    (h : args.use_cap = false) :
    loop_result rows args T ratio = .ok (T * 1000 / denomOf rows args ratio, false) := by
  simp [loop_result, h]

lemma loop_result_cap {rows : List SolverRow} {args : SolverArgs} {T ratio : ℚ}
    (h : args.use_cap = true) :
    loop_result rows args T ratio =
      solve_loop rows args T ratio 40 (T * 1000 / denomOf rows args ratio) := by
  simp [loop_result, h]

lemma solve_loop_target_zero {rows : List SolverRow} {args : SolverArgs}
    {ratio : ℚ} {n : ℕ} {m : ℚ} :
    solve_loop rows args 0 ratio (n + 1) m = .error .divisionByZero := by
  simp [solve_loop]

lemma solve_loop_converges {rows : List SolverRow} {args : SolverArgs}
    {T ratio : ℚ} {n : ℕ} {m : ℚ} (hT : T ≠ 0)
    (hc : |capped_revenue rows args ratio m - T| / T < 1 / 100000) :
    solve_loop rows args T ratio (n + 1) m = .ok (m, false) := by
  simp only [solve_loop]
  rw [if_neg hT, if_pos hc]

/-! ## Claim theorems -/

/-- C10: There exists a valid input on which the split-rate solver raises an
unclassified division-by-zero error: with a percentage-cap column and
target revenue 0, the relative convergence test
`abs(achieved - target) / target` of line 246 divides by zero on the first
iteration, and the call raises `ZeroDivisionError`, not `InvalidArgument`
or `InvalidConstraint`. -/
theorem solver_zero_target_division_error :
    model_split_rate_tax ex10_rows { use_cap := true } 0 3 =
      Except.error Err.divisionByZero := by
  have hd : ¬ denomOf ex10_rows { use_cap := true } 3 ≤ 0 := by
    norm_num [denomOf, total_adj_land, total_adj_improvement, adjustedLI, fillna, ex10_rows]
  refine model_eval_loop_error hd ?_
  rw [loop_result_cap rfl]
  exact solve_loop_target_zero (n := 39)

/-- C6: the split-rate solver fails with `InvalidConstraint` if and only if
the denominator `total_improvement_value + ratio * total_land_value`
(computed from the post-exemption adjusted values) is ≤ 0; the check sits
at line 214, during setup and before any rate computation. -/
theorem solver_degenerate_base_iff (rows : List SolverRow) (args : SolverArgs)
    (T ratio : ℚ) :
    model_split_rate_tax rows args T ratio = Except.error Err.invalidConstraint ↔
      denomOf rows args ratio ≤ 0 := by
  constructor
  · intro h
    by_contra hd
    unfold model_split_rate_tax at h
    rw [if_neg hd] at h
    cases hlr : loop_result rows args T ratio with
    | error e =>
      rw [hlr] at h
      dsimp only at h
      exact loop_result_no_ic ((Except.error.inj h) ▸ hlr)
    | ok p =>
      obtain ⟨m, w⟩ := p
      rw [hlr] at h
      dsimp only at h
      split at h
      · exact Err.noConfusion (Except.error.inj h)
      · exact Except.noConfusion h
  · intro hd
    unfold model_split_rate_tax
    rw [if_pos hd]

/-- C5: with a secondary millage column, the calculator fails with
`InvalidConstraint` (the line-71 `ValueError`, raised before any per-parcel
tax is computed) exactly when the coerced secondary millage of some row exceeds
its coerced primary millage; with no such row, no such error is raised. -/
theorem second_millage_invalid_constraint_iff (rows : List CalcRow)
    (args : CalcArgs) (hs : args.use_second = true) :
    calculate_current_tax rows args = Except.error Err.invalidConstraint ↔
      rows.any (fun r => cgt r.second_millage r.millage) = true := by
  unfold calculate_current_tax calc_check
  rw [hs, Bool.true_and]
  constructor
  · intro h
    by_contra hb
    rw [if_neg (by simpa using hb)] at h
    exact Except.noConfusion h
  · intro hb
    rw [if_pos (by simpa using hb)]

/-- Witness for C5: a table whose single row has secondary millage 30 above
primary millage 20 makes the calculator fail with `InvalidConstraint`. -/
theorem second_millage_invalid_constraint_iff_witness :
    calculate_current_tax ex5_rows { use_second := true } =
      Except.error Err.invalidConstraint :=
  (second_millage_invalid_constraint_iff ex5_rows { use_second := true } rfl).mpr
    (by simp [ex5_rows, cgt]; norm_num)

/-- C1: with no cap column, a successful solver run returns
`improvement_millage = target * 1000 / (total_improvement + ratio * total_land)`
(the totals being the post-exemption adjusted values),
`land_millage = ratio * improvement_millage` (so their quotient is exactly
the ratio), and the per-parcel `new_tax` column sums exactly to the target
revenue. -/
theorem split_rate_uncapped_exact (rows : List SolverRow) (args : SolverArgs)
    (T ratio : ℚ) (o : SolverOut) (hcap : args.use_cap = false)
    (h : model_split_rate_tax rows args T ratio = .ok o) :
    o.improvement_millage = T * 1000 / denomOf rows args ratio ∧
    o.land_millage = ratio * o.improvement_millage ∧
    o.land_millage / o.improvement_millage = ratio ∧
    (o.rows.map (fun r => r.new_tax)).sum = T := by
  obtain ⟨hd, hT, m, w, hlr, rfl⟩ := model_ok_iff.mp h
  rw [loop_result_nocap hcap] at hlr
  have hm : T * 1000 / denomOf rows args ratio = m :=
    congrArg Prod.fst (Except.ok.inj hlr)
  subst hm
  have hdp : 0 < denomOf rows args ratio := not_le.mp hd
  have hdne : denomOf rows args ratio ≠ 0 := ne_of_gt hdp
  have hmne : T * 1000 / denomOf rows args ratio ≠ 0 :=
    div_ne_zero (mul_ne_zero hT (by norm_num)) hdne
  refine ⟨rfl, rfl, mul_div_cancel_right₀ _ hmne, ?_⟩
  show ((rows.map (post_row args (ratio * (T * 1000 / denomOf rows args ratio))
      (T * 1000 / denomOf rows args ratio))).map (fun r => r.new_tax)).sum = T
  rw [List.map_map]
  have hfun : ((fun r => r.new_tax) ∘
      post_row args (ratio * (T * 1000 / denomOf rows args ratio))
        (T * 1000 / denomOf rows args ratio)) =
      (fun r => (adjustedLI args r).1 * (ratio * (T * 1000 / denomOf rows args ratio) / 1000) +
        (adjustedLI args r).2 * (T * 1000 / denomOf rows args ratio / 1000)) := by
    funext r
    rw [Function.comp_apply, post_row_new_tax_nocap hcap]
    ring
  rw [hfun]
  rw [qsum_map_add rows
    (fun r => (adjustedLI args r).1 * (ratio * (T * 1000 / denomOf rows args ratio) / 1000))
    (fun r => (adjustedLI args r).2 * (T * 1000 / denomOf rows args ratio / 1000))]
  rw [qsum_map_mul rows (fun r => (adjustedLI args r).1)
    (ratio * (T * 1000 / denomOf rows args ratio) / 1000)]
  rw [qsum_map_mul rows (fun r => (adjustedLI args r).2)
    (T * 1000 / denomOf rows args ratio / 1000)]
  have hl2 : (rows.map (fun r => (adjustedLI args r).1)).sum = total_adj_land rows args := rfl
  have hi2 : (rows.map (fun r => (adjustedLI args r).2)).sum =
      total_adj_improvement rows args := rfl
  rw [hl2, hi2]
  have hden : denomOf rows args ratio =
      total_adj_improvement rows args + ratio * total_adj_land rows args := rfl
  rw [hden] at hdne ⊢
  field_simp
  ring

/-- Witness for C1: the spec §8 example, land [100000, 0], improvement
[0, 50000], target 1500, ratio 3; the solved improvement millage is
1500000/350000 = 30/7 and the `new_tax` column sums to 1500. -/
theorem split_rate_uncapped_exact_witness :
    (model_split_rate_tax ex1_rows {} 1500 3 =
      Except.ok (solver_out ex1_rows {} 3 (1500 * 1000 / denomOf ex1_rows {} 3) false)) ∧
    ((solver_out ex1_rows {} 3 (1500 * 1000 / denomOf ex1_rows {} 3) false).improvement_millage =
        1500 * 1000 / denomOf ex1_rows {} 3 ∧
      (solver_out ex1_rows {} 3 (1500 * 1000 / denomOf ex1_rows {} 3) false).land_millage =
        3 * (solver_out ex1_rows {} 3 (1500 * 1000 / denomOf ex1_rows {} 3) false).improvement_millage ∧
      (solver_out ex1_rows {} 3 (1500 * 1000 / denomOf ex1_rows {} 3) false).land_millage /
          (solver_out ex1_rows {} 3 (1500 * 1000 / denomOf ex1_rows {} 3) false).improvement_millage = 3 ∧
      ((solver_out ex1_rows {} 3 (1500 * 1000 / denomOf ex1_rows {} 3) false).rows.map
        (fun r => r.new_tax)).sum = 1500) ∧
    1500 * 1000 / denomOf ex1_rows {} 3 = 30 / 7 := by
  have hd : ¬ denomOf ex1_rows {} 3 ≤ 0 := by
    norm_num [denomOf, total_adj_land, total_adj_improvement, adjustedLI, fillna, ex1_rows]
  have h : model_split_rate_tax ex1_rows {} 1500 3 =
      Except.ok (solver_out ex1_rows {} 3 (1500 * 1000 / denomOf ex1_rows {} 3) false) :=
    model_eval_ok hd (by norm_num) (loop_result_nocap rfl)
  refine ⟨h, split_rate_uncapped_exact ex1_rows {} 1500 3 _ rfl h, ?_⟩
  norm_num [denomOf, total_adj_land, total_adj_improvement, adjustedLI, fillna, ex1_rows]

/-- C2: with a cap column, when the 40-iteration proportional-scaling loop
exhausts its iteration cap without meeting the relative tolerance, the call
does not raise: it returns normally with the last computed millage rates
(`land_millage = ratio * m`), the warning flag raised, and the actually
achieved revenue (the `new_tax` sum recomputed at those rates, stored in
`new_total_revenue` by `solver_out`). -/
theorem split_rate_nonconvergence_returns_ok (rows : List SolverRow)
    (args : SolverArgs) (T ratio m : ℚ) (hcap : args.use_cap = true)
    (hd : ¬ denomOf rows args ratio ≤ 0)
    (hl : solve_loop rows args T ratio 40 (T * 1000 / denomOf rows args ratio) =
      .ok (m, true)) :
    model_split_rate_tax rows args T ratio =
      .ok (solver_out rows args ratio m true) := by
  have hT : T ≠ 0 := solve_loop_ok_target_ne (by norm_num) hl
  exact model_eval_ok hd hT ((loop_result_cap hcap).trans hl)

/-- On the one-parcel table `ex2_rows` the capped revenue is pinned at 1000
whenever the improvement millage is at least the seed 20/3, so every
iteration doubles the millage and the loop never converges. -/
lemma ex2_loop_stuck : ∀ (n : ℕ) (m : ℚ), 20 / 3 ≤ m →
    solve_loop ex2_rows { use_cap := true } 2000 3 n m = .ok (m * 2 ^ n, true) := by
  intro n
  induction n with
  | zero => intro m _; simp [solve_loop]
  | succ k ih =>
    intro m hm
    have hcr : capped_revenue ex2_rows { use_cap := true } 3 m = 1000 := by
      simp only [capped_revenue, ex2_rows, adjustedLI, row_max_tax, fillna, List.map_cons,
        List.map_nil, List.sum_cons, List.sum_nil]
      norm_num
      linarith
    simp only [solve_loop]
    rw [if_neg (by norm_num : ¬ (2000 : ℚ) = 0), hcr,
      if_neg (by rw [abs_of_nonpos (by norm_num)]; norm_num),
      if_neg (by norm_num : ¬ (1000 : ℚ) = 0)]
    have h2 : m * ((2000 : ℚ) / 1000) = 2 * m := by ring
    rw [h2, ih (2 * m) (by linarith)]
    have h3 : 2 * m * 2 ^ k = m * 2 ^ (k + 1) := by ring
    rw [h3]

/-- Witness for C2: on `ex2_rows` (1% cap pinning revenue at 1000, target
2000) the loop exhausts all 40 iterations, doubling the seed 20/3 each
time; the call returns the rates after 40 doublings together with the
achieved revenue 1000, off target by far more than the tolerance. -/
theorem split_rate_nonconvergence_returns_ok_witness :
    model_split_rate_tax ex2_rows { use_cap := true } 2000 3 =
      Except.ok (solver_out ex2_rows { use_cap := true } 3 ex2_m true) ∧
    (solver_out ex2_rows { use_cap := true } 3 ex2_m true).new_total_revenue = 1000 ∧
    ¬ |(1000 : ℚ) - 2000| / 2000 < 1 / 100000 := by
  have hseed : 2000 * 1000 / denomOf ex2_rows { use_cap := true } 3 = 20 / 3 := by
    norm_num [denomOf, total_adj_land, total_adj_improvement, adjustedLI, fillna, ex2_rows]
  have hd : ¬ denomOf ex2_rows { use_cap := true } 3 ≤ 0 := by
    norm_num [denomOf, total_adj_land, total_adj_improvement, adjustedLI, fillna, ex2_rows]
  have hl : solve_loop ex2_rows { use_cap := true } 2000 3 40
      (2000 * 1000 / denomOf ex2_rows { use_cap := true } 3) = .ok (ex2_m, true) := by
    rw [hseed, ex2_loop_stuck 40 (20 / 3) le_rfl, ex2_m]
  refine ⟨split_rate_nonconvergence_returns_ok ex2_rows { use_cap := true } 2000 3 ex2_m
    rfl hd hl, ?_, by rw [abs_of_nonpos (by norm_num)]; norm_num⟩
  norm_num [solver_out, ex2_rows, post_row, adjustedLI, row_max_tax, fillna, ex2_m,
    redistribute, pdivQ, pmulQ, tax_change_of, tax_change_pct_of, min_def]

/-- C4: with no cap, exemption or exemption-flag column, every parcel with
numeric value and millage cells gets `current_tax = value * millage / 1000`
exactly, and `total_revenue` is the sum of the `current_tax` column. -/
theorem current_tax_linear_formula (rows : List CalcRow) (args : CalcArgs)
    (o : CalcOut) (i : ℕ) (r : CalcRow) (orow : CalcOutRow) (v mq : ℚ)
    (hex : args.use_exemption = false) (hfl : args.use_flag = false)
    (hcap : args.use_cap = false)
    (h : calculate_current_tax rows args = .ok o)
    (hi : rows[i]? = some r) (ho : o.rows[i]? = some orow)
    (hv : r.value = some v) (hm : r.millage = some mq) :
    orow.current_tax = v * mq / 1000 ∧
    o.total_revenue = (o.rows.map (fun x => x.current_tax)).sum := by
  obtain rfl := calc_ok_eq h
  constructor
  · rw [calc_out_rows_get, hi] at ho
    obtain rfl := Option.some.inj ho
    simp [calc_row, calc_tax1, calc_tax0, calc_taxable, hex, hfl, hcap, hv, hm, cmul, fillna]
  · rfl

/-- Witness for C4: the spec §8 example, values [100000, 200000, 0] at
millage 20 yield taxes [2000, 4000, 0] and total revenue 6000. -/
theorem current_tax_linear_formula_witness :
    (calculate_current_tax ex4_rows {} = Except.ok (calc_out ex4_rows {})) ∧
    ((calc_row {} ⟨some 100000, some 20, none, none, none, none⟩).current_tax =
        100000 * 20 / 1000 ∧
      (calc_out ex4_rows {}).total_revenue =
        ((calc_out ex4_rows {}).rows.map (fun x => x.current_tax)).sum) ∧
    (calc_out ex4_rows {}).rows.map (fun r => r.current_tax) = [2000, 4000, 0] ∧
    (calc_out ex4_rows {}).total_revenue = 6000 := by
  have h : calculate_current_tax ex4_rows {} = Except.ok (calc_out ex4_rows {}) :=
    calc_eval_ok (by simp [calc_check])
  refine ⟨h, current_tax_linear_formula ex4_rows {} (calc_out ex4_rows {}) 0
    ⟨some 100000, some 20, none, none, none, none⟩
    (calc_row {} ⟨some 100000, some 20, none, none, none, none⟩) 100000 20
    rfl rfl rfl h rfl (by rw [calc_out_rows_get]; rfl) rfl rfl, ?_, ?_⟩
  · norm_num [calc_out, calc_row, calc_tax1, calc_tax0, calc_taxable, calc_max_tax,
      ex4_rows, cmul, fillna]
  · norm_num [calc_out, calc_row, calc_tax1, calc_tax0, calc_taxable, calc_max_tax,
      ex4_rows, cmul, fillna]

/-- Counterexample for C7: the claim quantifies over every combination of
optional arguments, but a negative percentage-cap cell drives the tax
negative: value 100000, millage 20, cap -1/2 gives
`current_tax = min(2000, -50000) = -50000 < 0`. -/
theorem current_tax_negative_cap_cx :
    (calculate_current_tax ex7c_rows { use_cap := true } =
      Except.ok (calc_out ex7c_rows { use_cap := true })) ∧
    (calc_out ex7c_rows { use_cap := true }).rows.map (fun r => r.current_tax) =
      [-50000] ∧
    ¬ (0 : ℚ) ≤ -50000 := by
  refine ⟨calc_eval_ok (by simp [calc_check]), ?_, by norm_num⟩
  norm_num [calc_out, calc_row, calc_tax1, calc_tax0, calc_taxable, calc_max_tax,
    ex7c_rows, cmul, cmin, fillna, min_def]

lemma cnn_some {q : ℚ} (h : 0 ≤ q) : cell_nonneg (some q) = true := by
  simp [cell_nonneg, h]

lemma fillna_nonneg {c : Cell} {d : ℚ} (hc : cell_nonneg c = true) (hd : 0 ≤ d) :
    0 ≤ fillna c d := by
  cases c with
  | none => simpa [fillna] using hd
  | some q => simpa [fillna, cell_nonneg] using hc

lemma cnn_cwhere {c : Cell} (b : Bool) (hc : cell_nonneg c = true) :
    cell_nonneg (cwhere c b) = true := by
  cases b
  · simp [cwhere, cell_nonneg]
  · simpa [cwhere] using hc

lemma cnn_cclip0 (c : Cell) : cell_nonneg (cclip0 c) = true := by
  cases c with
  | none => simp [cclip0, cell_nonneg]
  | some q => simp [cclip0, cell_nonneg]

lemma cnn_cmul {a b : Cell} (ha : cell_nonneg a = true) (hb : cell_nonneg b = true) :
    cell_nonneg (cmul a b) = true := by
  cases a with
  | none => simp [cmul, cell_nonneg]
  | some x =>
    cases b with
    | none => simp [cmul, cell_nonneg]
    | some y =>
      simp only [cmul, cell_nonneg, decide_eq_true_eq] at *
      exact mul_nonneg ha hb

lemma cnn_cmin {a b : Cell} (ha : cell_nonneg a = true) (hb : cell_nonneg b = true) :
    cell_nonneg (cmin a b) = true := by
  cases a <;> cases b <;> simp_all [cmin, cell_nonneg]

lemma cnn_div1000 {c : Cell} (hc : cell_nonneg c = true) :
    cell_nonneg (c.map (fun q => q / 1000)) = true := by
  cases c with
  | none => simp [cell_nonneg]
  | some q =>
    have hq : (0 : ℚ) ≤ q := by simpa [cell_nonneg] using hc
    show cell_nonneg (some (q / 1000)) = true
    exact cnn_some (div_nonneg hq (by norm_num : (0 : ℚ) ≤ 1000))

lemma calc_taxable_nonneg {args : CalcArgs} {r : CalcRow}
    (hv : cell_nonneg r.value = true) :
    cell_nonneg (calc_taxable args r) = true := by
  cases hu : args.use_exemption <;> cases hf : args.use_flag
  · simpa [calc_taxable, hu, hf] using hv
  · simpa [calc_taxable, hu, hf] using cnn_cwhere _ hv
  · simpa [calc_taxable, hu, hf] using cnn_cclip0 _
  · simpa [calc_taxable, hu, hf] using cnn_cclip0 _

/-- C7 amended: per-parcel `current_tax` is nonnegative for every parcel
whose value, millage and (if any) cap cells are nonnegative-or-missing;
the original universal claim fails for negative cap fractions (and for
negative values or millages). -/
theorem current_tax_nonneg_of_nonneg_inputs (rows : List CalcRow)
    (args : CalcArgs) (o : CalcOut) (i : ℕ) (r : CalcRow) (orow : CalcOutRow)
    (h : calculate_current_tax rows args = .ok o)
    (hi : rows[i]? = some r) (ho : o.rows[i]? = some orow)
    (hv : cell_nonneg r.value = true) (hm : cell_nonneg r.millage = true)
    (hc : cell_nonneg r.cap = true) :
    0 ≤ orow.current_tax := by
  obtain rfl := calc_ok_eq h
  rw [calc_out_rows_get, hi] at ho
  obtain rfl := Option.some.inj ho
  show 0 ≤ fillna (calc_tax1 args r) 0
  refine fillna_nonneg ?_ le_rfl
  have h0 : cell_nonneg (calc_tax0 args r) = true :=
    cnn_div1000 (cnn_cmul (calc_taxable_nonneg hv) hm)
  cases hcap : args.use_cap
  · simpa [calc_tax1, hcap] using h0
  · have hmx : cell_nonneg (calc_max_tax r) = true :=
      cnn_cmul hv (cnn_some (fillna_nonneg hc zero_le_one))
    simpa [calc_tax1, hcap] using cnn_cmin h0 hmx

/-- Witness for C7 amended: with value 100000, millage 20 and cap 1/2, all
nonnegative, the computed per-parcel tax is nonnegative. -/
theorem current_tax_nonneg_of_nonneg_inputs_witness :
    0 ≤ (calc_row { use_cap := true }
      ⟨some 100000, some 20, none, none, some (1 / 2), none⟩).current_tax := by
  have h : calculate_current_tax ex7w_rows { use_cap := true } =
      Except.ok (calc_out ex7w_rows { use_cap := true }) :=
    calc_eval_ok (by simp [calc_check])
  exact current_tax_nonneg_of_nonneg_inputs ex7w_rows { use_cap := true }
    (calc_out ex7w_rows { use_cap := true }) 0
    ⟨some 100000, some 20, none, none, some (1 / 2), none⟩
    (calc_row { use_cap := true } ⟨some 100000, some 20, none, none, some (1 / 2), none⟩)
    h rfl (by rw [calc_out_rows_get]; rfl)
    (by norm_num [cell_nonneg]) (by norm_num [cell_nonneg]) (by norm_num [cell_nonneg])

/-- Counterexample for C3: the redistribution division is NOT guarded.  On
`ex3c_rows` the second parcel (exempt, so pre-cap land and improvement
taxes are both 0, with a negative cap ceiling -50) is flagged `tax_capped`;
the code divides its zero pre-cap taxes by the zero pre-cap total
(pandas `0/0 = NaN`) and stores NaN in `land_tax` and `improvement_tax`
instead of skipping the parcel (which would have left them at `fin 0`). -/
theorem split_rate_redistribution_unguarded_cx :
    (model_split_rate_tax ex3c_rows { use_flag := true, use_cap := true } 10000000 3 =
      Except.ok (solver_out ex3c_rows { use_flag := true, use_cap := true } 3
        (100000 / 3) false)) ∧
    (solver_out ex3c_rows { use_flag := true, use_cap := true } 3
        (100000 / 3) false).rows[1]? =
      some ⟨.nan, .nan, -50, some true, none, none⟩ ∧
    (adjustedLI { use_flag := true, use_cap := true }
          ⟨some 100, some 0, none, some 1, some (-1 / 2), none⟩).1 * (3 * (100000 / 3)) / 1000 +
      (adjustedLI { use_flag := true, use_cap := true }
          ⟨some 100, some 0, none, some 1, some (-1 / 2), none⟩).2 * (100000 / 3) / 1000 = 0 ∧
    PFloat.nan ≠ PFloat.fin 0 := by
  have hd : ¬ denomOf ex3c_rows { use_flag := true, use_cap := true } 3 ≤ 0 := by
    norm_num [denomOf, total_adj_land, total_adj_improvement, adjustedLI, fillna, ex3c_rows]
  have hseed : (10000000 : ℚ) * 1000 /
      denomOf ex3c_rows { use_flag := true, use_cap := true } 3 = 100000 / 3 := by
    norm_num [denomOf, total_adj_land, total_adj_improvement, adjustedLI, fillna, ex3c_rows]
  have hcr : capped_revenue ex3c_rows { use_flag := true, use_cap := true } 3
      (100000 / 3) = 9999950 := by
    norm_num [capped_revenue, ex3c_rows, adjustedLI, row_max_tax, fillna, min_def]
  have hl : loop_result ex3c_rows { use_flag := true, use_cap := true } 10000000 3 =
      .ok (100000 / 3, false) := by
    rw [loop_result_cap rfl, hseed]
    refine solve_loop_converges (n := 39) (by norm_num) ?_
    rw [hcr, show |(9999950 : ℚ) - 10000000| = 50 by
      rw [abs_of_nonpos (by norm_num)]; norm_num]
    norm_num
  refine ⟨model_eval_ok hd (by norm_num) hl, ?_, ?_, by simp⟩
  · rw [solver_out_rows_get]
    show some (post_row { use_flag := true, use_cap := true } (3 * (100000 / 3)) (100000 / 3)
      ⟨some 100, some 0, none, some 1, some (-1 / 2), none⟩) = _
    norm_num [post_row, adjustedLI, row_max_tax, fillna, redistribute, pdivQ, pmulQ,
      tax_change_of, tax_change_pct_of, min_def]
  · norm_num [adjustedLI, fillna]

/-- C3 amended: for every parcel flagged `tax_capped` whose pre-cap total
`land_tax + improvement_tax` is nonzero, the clamped `new_tax` is
redistributed into `land_tax` and `improvement_tax` preserving the pre-cap
ratio between them and summing back to `new_tax`; a parcel with a zero
pre-cap total is not skipped: the division is performed and yields NaN
(see the counterexample). -/
theorem split_rate_cap_redistribution (rows : List SolverRow) (args : SolverArgs)
    (T ratio : ℚ) (o : SolverOut) (i : ℕ) (r : SolverRow) (orow : SolverOutRow)
    (hcap : args.use_cap = true)
    (h : model_split_rate_tax rows args T ratio = .ok o)
    (hi : rows[i]? = some r) (ho : o.rows[i]? = some orow)
    (hfl : orow.tax_capped = some true)
    (hne : (adjustedLI args r).1 * o.land_millage / 1000 +
        (adjustedLI args r).2 * o.improvement_millage / 1000 ≠ 0) :
    orow.land_tax = .fin ((adjustedLI args r).1 * o.land_millage / 1000 /
        ((adjustedLI args r).1 * o.land_millage / 1000 +
          (adjustedLI args r).2 * o.improvement_millage / 1000) * orow.new_tax) ∧
    orow.improvement_tax = .fin ((adjustedLI args r).2 * o.improvement_millage / 1000 /
        ((adjustedLI args r).1 * o.land_millage / 1000 +
          (adjustedLI args r).2 * o.improvement_millage / 1000) * orow.new_tax) ∧
    (∃ lq iq, orow.land_tax = .fin lq ∧ orow.improvement_tax = .fin iq ∧
      lq + iq = orow.new_tax ∧
      lq * ((adjustedLI args r).2 * o.improvement_millage / 1000) =
        iq * ((adjustedLI args r).1 * o.land_millage / 1000)) := by
  obtain ⟨hd, hT, m, w, hlr, rfl⟩ := model_ok_iff.mp h
  rw [solver_out_rows_get, hi] at ho
  obtain rfl := Option.some.inj ho
  rw [solver_out_land, solver_out_impr] at hne ⊢
  set lt := (adjustedLI args r).1 * (ratio * m) / 1000 with hlt
  set it := (adjustedLI args r).2 * m / 1000 with hit
  by_cases hmt : row_max_tax r < lt + it
  · have hpost : post_row args (ratio * m) m r =
        ⟨redistribute lt (lt + it) (min (lt + it) (row_max_tax r)),
         redistribute it (lt + it) (min (lt + it) (row_max_tax r)),
         min (lt + it) (row_max_tax r), some true,
         tax_change_of args (min (lt + it) (row_max_tax r)) r,
         tax_change_pct_of args (min (lt + it) (row_max_tax r)) r⟩ := by
      rw [post_row]
      simp only [hcap, if_true, ← hlt, ← hit, if_pos hmt]
    rw [hpost]
    have hred : ∀ part : ℚ, redistribute part (lt + it) (min (lt + it) (row_max_tax r)) =
        .fin (part / (lt + it) * min (lt + it) (row_max_tax r)) := by
      intro part
      rw [redistribute, pdivQ, if_neg hne, pmulQ]
    refine ⟨hred lt, hred it, lt / (lt + it) * min (lt + it) (row_max_tax r),
      it / (lt + it) * min (lt + it) (row_max_tax r), hred lt, hred it, ?_, ?_⟩
    · field_simp
      ring
    · field_simp
      ring
  · exfalso
    have hpost : (post_row args (ratio * m) m r).tax_capped = some false := by
      rw [post_row]
      simp only [hcap, if_true, ← hlt, ← hit, if_neg hmt]
    rw [hpost] at hfl
    exact Bool.noConfusion (Option.some.inj hfl)

/-- Witness for C3 amended: on `ex3w_rows` the solver converges at the seed
rates (land millage 3, improvement millage 1); the second parcel has
uncapped land tax 300 and improvement tax 100, cap ceiling 200, and the
redistribution yields land tax 150 and improvement tax 50 — the very example of the spec, ratio preserved. -/
theorem split_rate_cap_redistribution_witness :
    (post_row { use_cap := true } (3 * 1) 1
        ⟨some 100000, some 100000, none, none, some (1 / 1000), none⟩).land_tax =
      .fin 150 ∧
    (post_row { use_cap := true } (3 * 1) 1
        ⟨some 100000, some 100000, none, none, some (1 / 1000), none⟩).improvement_tax =
      .fin 50 ∧
    (post_row { use_cap := true } (3 * 1) 1
        ⟨some 100000, some 100000, none, none, some (1 / 1000), none⟩).new_tax = 200 := by
  have hd : ¬ denomOf ex3w_rows { use_cap := true } 3 ≤ 0 := by
    norm_num [denomOf, total_adj_land, total_adj_improvement, adjustedLI, fillna, ex3w_rows]
  have hseed : (30000400 : ℚ) * 1000 / denomOf ex3w_rows { use_cap := true } 3 = 1 := by
    norm_num [denomOf, total_adj_land, total_adj_improvement, adjustedLI, fillna, ex3w_rows]
  have hcr : capped_revenue ex3w_rows { use_cap := true } 3 1 = 30000200 := by
    norm_num [capped_revenue, ex3w_rows, adjustedLI, row_max_tax, fillna, min_def]
  have hl : loop_result ex3w_rows { use_cap := true } 30000400 3 = .ok (1, false) := by
    rw [loop_result_cap rfl, hseed]
    refine solve_loop_converges (n := 39) (by norm_num) ?_
    rw [hcr, show |(30000200 : ℚ) - 30000400| = 200 by
      rw [abs_of_nonpos (by norm_num)]; norm_num]
    norm_num
  have h : model_split_rate_tax ex3w_rows { use_cap := true } 30000400 3 =
      Except.ok (solver_out ex3w_rows { use_cap := true } 3 1 false) :=
    model_eval_ok hd (by norm_num) hl
  have hnt : (post_row { use_cap := true } (3 * 1) 1
      ⟨some 100000, some 100000, none, none, some (1 / 1000), none⟩).new_tax = 200 := by
    norm_num [post_row, adjustedLI, row_max_tax, fillna, min_def,
      tax_change_of, tax_change_pct_of]
  have hflag : (post_row { use_cap := true } (3 * 1) 1
      ⟨some 100000, some 100000, none, none, some (1 / 1000), none⟩).tax_capped =
      some true := by
    norm_num [post_row, adjustedLI, row_max_tax, fillna, min_def,
      tax_change_of, tax_change_pct_of]
  obtain ⟨h1, h2, -⟩ := split_rate_cap_redistribution ex3w_rows { use_cap := true }
    30000400 3 (solver_out ex3w_rows { use_cap := true } 3 1 false) 1
    ⟨some 100000, some 100000, none, none, some (1 / 1000), none⟩
    (post_row { use_cap := true } (3 * 1) 1
      ⟨some 100000, some 100000, none, none, some (1 / 1000), none⟩)
    rfl h rfl (by rw [solver_out_rows_get]; rfl) hflag
    (by norm_num [adjustedLI, fillna, solver_out_land, solver_out_impr])
  rw [hnt] at h1 h2
  refine ⟨?_, ?_, hnt⟩
  · rw [h1]
    norm_num [adjustedLI, fillna, solver_out_land, solver_out_impr]
  · rw [h2]
    norm_num [adjustedLI, fillna, solver_out_land, solver_out_impr]

/-- Counterexample for C8: the per-parcel ratio `land_tax / improvement_tax`
is NOT the rate ratio.  One uncapped parcel with land 100000 and
improvement 50000 at ratio 3 gets land tax 9000/7 and improvement tax
1500/7, whose quotient is 6, not 3. -/
theorem uncapped_parcel_ratio_cx :
    (model_split_rate_tax ex8_rows {} 1500 3 =
      Except.ok (solver_out ex8_rows {} 3 (30 / 7) false)) ∧
    (solver_out ex8_rows {} 3 (30 / 7) false).rows[0]? =
      some ⟨.fin (9000 / 7), .fin (1500 / 7), 1500, none, none, none⟩ ∧
    (9000 / 7 : ℚ) / (1500 / 7) = 6 ∧ (6 : ℚ) ≠ 3 := by
  have hd : ¬ denomOf ex8_rows {} 3 ≤ 0 := by
    norm_num [denomOf, total_adj_land, total_adj_improvement, adjustedLI, fillna, ex8_rows]
  have hseed : (1500 : ℚ) * 1000 / denomOf ex8_rows {} 3 = 30 / 7 := by
    norm_num [denomOf, total_adj_land, total_adj_improvement, adjustedLI, fillna, ex8_rows]
  have h : model_split_rate_tax ex8_rows {} 1500 3 =
      Except.ok (solver_out ex8_rows {} 3 (30 / 7) false) := by
    have h0 := model_eval_ok hd (by norm_num : (1500:ℚ) ≠ 0) (@loop_result_nocap ex8_rows {} 1500 3 rfl)
    rwa [hseed] at h0
  refine ⟨h, ?_, by norm_num, by norm_num⟩
  rw [solver_out_rows_get]
  show some (post_row {} (3 * (30 / 7)) (30 / 7)
    ⟨some 100000, some 50000, none, none, none, none⟩) = _
  norm_num [post_row, adjustedLI, fillna, tax_change_of, tax_change_pct_of]

/-- C8 amended: the ratio fixed by the solver is between the millage RATES
(`land_millage = ratio * improvement_millage`); a parcel not flagged
`tax_capped` has `land_tax = adj_land * land_millage / 1000` and
`improvement_tax = adj_improvement * improvement_millage / 1000`, so its
per-parcel tax ratio is the rate ratio scaled by the land/improvement value ratio
of the parcel itself (`land_tax * adj_improvement =
ratio * improvement_tax * adj_land`), not `ratio` itself. -/
theorem uncapped_ratio_is_rate_ratio (rows : List SolverRow) (args : SolverArgs)
    (T ratio : ℚ) (o : SolverOut)
    (h : model_split_rate_tax rows args T ratio = .ok o) :
    o.land_millage = ratio * o.improvement_millage ∧
    ∀ (i : ℕ) (r : SolverRow) (orow : SolverOutRow),
      rows[i]? = some r → o.rows[i]? = some orow →
      orow.tax_capped ≠ some true →
      orow.land_tax = .fin ((adjustedLI args r).1 * o.land_millage / 1000) ∧
      orow.improvement_tax = .fin ((adjustedLI args r).2 * o.improvement_millage / 1000) ∧
      ((adjustedLI args r).1 * o.land_millage / 1000) * (adjustedLI args r).2 =
        ratio * (((adjustedLI args r).2 * o.improvement_millage / 1000) *
          (adjustedLI args r).1) := by
  obtain ⟨hd, hT, m, w, hlr, rfl⟩ := model_ok_iff.mp h
  refine ⟨rfl, ?_⟩
  intro i r orow hi ho hnc
  rw [solver_out_rows_get, hi] at ho
  obtain rfl := Option.some.inj ho
  rw [solver_out_land, solver_out_impr]
  refine ⟨?_, ?_, by ring⟩ <;> cases hcap : args.use_cap
  · simp [post_row, hcap]
  · by_cases hmt : row_max_tax r <
        (adjustedLI args r).1 * (ratio * m) / 1000 + (adjustedLI args r).2 * m / 1000
    · exfalso
      apply hnc
      rw [post_row]
      simp only [hcap, if_true, if_pos hmt]
    · rw [post_row]
      simp only [hcap, if_true, if_neg hmt]
  · simp [post_row, hcap]
  · by_cases hmt : row_max_tax r <
        (adjustedLI args r).1 * (ratio * m) / 1000 + (adjustedLI args r).2 * m / 1000
    · exfalso
      apply hnc
      rw [post_row]
      simp only [hcap, if_true, if_pos hmt]
    · rw [post_row]
      simp only [hcap, if_true, if_neg hmt]

/-- Witness for C8 amended: on the `ex8_rows` run the millage rates are in
ratio 3 and the taxes of the uncapped parcel are 9000/7 and 1500/7, satisfying
`land_tax * adj_improvement = 3 * improvement_tax * adj_land`. -/
theorem uncapped_ratio_is_rate_ratio_witness :
    (solver_out ex8_rows {} 3 (30 / 7) false).land_millage =
      3 * (solver_out ex8_rows {} 3 (30 / 7) false).improvement_millage ∧
    (post_row {} (3 * (30 / 7)) (30 / 7)
      ⟨some 100000, some 50000, none, none, none, none⟩).land_tax = .fin (9000 / 7) ∧
    (post_row {} (3 * (30 / 7)) (30 / 7)
      ⟨some 100000, some 50000, none, none, none, none⟩).improvement_tax =
      .fin (1500 / 7) ∧
    (9000 / 7 : ℚ) * 50000 = 3 * ((1500 / 7) * 100000) := by
  have hd : ¬ denomOf ex8_rows {} 3 ≤ 0 := by
    norm_num [denomOf, total_adj_land, total_adj_improvement, adjustedLI, fillna, ex8_rows]
  have hseed : (1500 : ℚ) * 1000 / denomOf ex8_rows {} 3 = 30 / 7 := by
    norm_num [denomOf, total_adj_land, total_adj_improvement, adjustedLI, fillna, ex8_rows]
  have h : model_split_rate_tax ex8_rows {} 1500 3 =
      Except.ok (solver_out ex8_rows {} 3 (30 / 7) false) := by
    have h0 := model_eval_ok hd (by norm_num : (1500:ℚ) ≠ 0) (@loop_result_nocap ex8_rows {} 1500 3 rfl)
    rwa [hseed] at h0
  have happ := uncapped_ratio_is_rate_ratio ex8_rows {} 1500 3 _ h
  obtain ⟨hl1, hl2, -⟩ := happ.2 0 ⟨some 100000, some 50000, none, none, none, none⟩
    (post_row {} (3 * (30 / 7)) (30 / 7) ⟨some 100000, some 50000, none, none, none, none⟩)
    rfl (by rw [solver_out_rows_get]; rfl) (by simp [post_row])
  refine ⟨happ.1, ?_, ?_, by norm_num⟩
  · rw [hl1]
    norm_num [adjustedLI, fillna, solver_out_land]
  · rw [hl2]
    norm_num [adjustedLI, fillna, solver_out_impr]

/-- Counterexample for C9: a non-numeric percentage-cap cell is NOT
defaulted to 0 — it is defaulted to 1 (`fillna(1)`, line 89).  With value
100000 and millage 20, a missing cap gives `current_tax = 2000` (cap
ceiling 100000), while a cap of 0 — the default the claim asserts — would
give `current_tax = 0`. -/
theorem nonnumeric_cap_default_cx :
    (calculate_current_tax ex9_rows { use_cap := true } =
      Except.ok (calc_out ex9_rows { use_cap := true })) ∧
    (calc_out ex9_rows { use_cap := true }).rows.map (fun r => r.current_tax) =
      [2000] ∧
    (calc_out ex9z_rows { use_cap := true }).rows.map (fun r => r.current_tax) =
      [0] ∧
    (2000 : ℚ) ≠ 0 := by
  refine ⟨calc_eval_ok (by simp [calc_check]), ?_, ?_, by norm_num⟩
  · norm_num [calc_out, calc_row, calc_tax1, calc_tax0, calc_taxable, calc_max_tax,
      ex9_rows, cmul, cmin, fillna, min_def]
  · norm_num [calc_out, calc_row, calc_tax1, calc_tax0, calc_taxable, calc_max_tax,
      ex9z_rows, cmul, cmin, fillna, min_def]

/-- C9 amended: non-numeric cells coerce to missing and are then defaulted
during the adjustment steps — exemption and exemption-flag cells to 0, the
percentage-cap cell to 1 (in both the calculator and the `row_max_tax` of the solver), never to a crash: a missing millage (or a missing value
when no exemption flag is in play) leaves the `current_tax` of the parcel at 0
after the final `fillna(0)`, so no NaN reaches the revenue sum, and the
only error the calculator ever raises is the `InvalidConstraint`
secondary-millage check. -/
theorem nonnumeric_coercion_defaults (args : CalcArgs) (r : CalcRow) :
    (r.exemption = none → calc_row args r = calc_row args { r with exemption := some 0 }) ∧
    (r.exemption_flag = none →
      calc_row args r = calc_row args { r with exemption_flag := some 0 }) ∧
    (r.cap = none → calc_row args r = calc_row args { r with cap := some 1 }) ∧
    (∀ rs : SolverRow, rs.cap = none → row_max_tax rs = row_max_tax { rs with cap := some 1 }) ∧
    (r.millage = none → (calc_row args r).current_tax = 0) ∧
    (r.value = none → args.use_flag = false → (calc_row args r).current_tax = 0) ∧
    (∀ (rows : List CalcRow) (e : Err),
      calculate_current_tax rows args = .error e → e = .invalidConstraint) := by
  obtain ⟨v, mq, ex, fl, cp, sm⟩ := r
  refine ⟨?_, ?_, ?_, ?_, ?_, ?_, ?_⟩
  · intro he
    cases he
    rfl
  · intro hf
    cases hf
    rfl
  · intro hcp
    cases hcp
    rfl
  · intro rs hcp
    obtain ⟨lv, iv, rex, rfl2, rcp, rct⟩ := rs
    cases hcp
    rfl
  · intro hmq
    cases hmq
    have h0 : calc_tax0 args ⟨v, none, ex, fl, cp, sm⟩ = none := by
      cases ht : calc_taxable args ⟨v, none, ex, fl, cp, sm⟩ <;>
        simp [calc_tax0, cmul, ht]
    show fillna (calc_tax1 args ⟨v, none, ex, fl, cp, sm⟩) 0 = 0
    cases hcap : args.use_cap
    · simp [calc_tax1, hcap, h0, fillna]
    · simp only [calc_tax1, hcap, if_true, h0]
      cases calc_max_tax ⟨v, none, ex, fl, cp, sm⟩ <;> simp [cmin, fillna]
  · intro hv hfl
    cases hv
    have ht : calc_taxable args ⟨none, mq, ex, fl, cp, sm⟩ = none := by
      cases hex : args.use_exemption <;>
        simp [calc_taxable, hex, hfl, cclip0, csub]
    have h0 : calc_tax0 args ⟨none, mq, ex, fl, cp, sm⟩ = none := by
      simp [calc_tax0, ht, cmul]
    show fillna (calc_tax1 args ⟨none, mq, ex, fl, cp, sm⟩) 0 = 0
    cases hcap : args.use_cap
    · simp [calc_tax1, hcap, h0, fillna]
    · simp only [calc_tax1, hcap, if_true, h0]
      simp [cmin, calc_max_tax, cmul, fillna]
  · intro rows e herr
    unfold calculate_current_tax at herr
    split at herr
    · exact (Except.error.inj herr).symm
    · exact Except.noConfusion herr

/-- Witness for C9 amended: the all-missing row behaves as exemption 0,
flag 0, cap 1 and contributes tax 0; the secondary-millage table is the
one calculator error and it is classified `InvalidConstraint`. -/
theorem nonnumeric_coercion_defaults_witness :
    (calc_row { use_cap := true } ⟨none, none, none, none, none, none⟩ =
      calc_row { use_cap := true }
        ⟨none, none, some 0, none, none, none⟩) ∧
    (calc_row { use_cap := true } ⟨none, none, none, none, none, none⟩ =
      calc_row { use_cap := true }
        ⟨none, none, none, some 0, none, none⟩) ∧
    (calc_row { use_cap := true } ⟨none, none, none, none, none, none⟩ =
      calc_row { use_cap := true }
        ⟨none, none, none, none, some 1, none⟩) ∧
    row_max_tax ⟨some 100, some 50, none, none, none, none⟩ =
      row_max_tax ⟨some 100, some 50, none, none, some 1, none⟩ ∧
    (calc_row { use_cap := true } ⟨none, none, none, none, none, none⟩).current_tax = 0 ∧
    Err.invalidConstraint = Err.invalidConstraint := by
  have happ := nonnumeric_coercion_defaults { use_cap := true }
    ⟨none, none, none, none, none, none⟩
  have hchk : calc_check ex5_rows { use_second := true } = true := by
    simp [calc_check, ex5_rows, cgt]
    norm_num
  have herr : calculate_current_tax ex5_rows { use_second := true } =
      Except.error Err.invalidConstraint := by
    rw [calculate_current_tax, if_pos hchk]
  exact ⟨happ.1 rfl, happ.2.1 rfl, happ.2.2.1 rfl,
    happ.2.2.2.1 ⟨some 100, some 50, none, none, none, none⟩ rfl,
    happ.2.2.2.2.1 rfl,
    (nonnumeric_coercion_defaults { use_second := true }
      ⟨none, none, none, none, none, none⟩).2.2.2.2.2.2 ex5_rows Err.invalidConstraint herr⟩

end LVT
